import Mathlib

/-!
# aws-iam-authenticator: the `server` command

A shallow embedding of `cmd/aws-iam-authenticator/server.go`.

* `init` is embedded as a function on an explicit state holding the flag set
  of `serverCmd`, the key/flag bindings of the global viper instance, the
  `flag.CommandLine` of the standard library and the sub-commands of `rootCmd`.
  Every library call `init` makes is also written to a call log, in the order
  of the source.
* `serverCmd.Run` is embedded as a function from the collaborators it calls to
  the sequence of calls it makes and the way it ends.

* The identity mapper and the rate budget, which consume the backend-mode
  list and the rate-limit flags, live in packages that are not among the
  sources; their definitions follow the specification and say so.

The libraries (`pflag`, `viper`, `cobra`, `logrus`) are not part of the
repository; the definitions under "library calls" give the part of their
behaviour that `server.go` relies on.  Identifiers of other packages of the
repository that `server.go` only mentions (`endpoints.AwsPartitionID`,
`endpoints.PARTITIONS`, `mapper.ModeMountedFile`, `mapper.BackendModeChoices`,
`pkg.Version`, `pkg.CommitID`) are parameters.
-/

namespace AwsIamAuthenticator

/-! ## Constants of `server.go` -/

/-- DefaultPort is the default localhost port (chosen randomly). -/
def DefaultPort : Int := 21362

/-- Default EC2 TPS variable: queries per second. -/
def DefaultEC2DescribeInstancesQps : Int := 15

/-- Default EC2 TPS variable: burst. -/
def DefaultEC2DescribeInstancesBurst : Int := 5

/-- Identifiers of `pkg/endpoints` and `pkg/mapper` that `init` mentions. -/
structure Externals where
  AwsPartitionID : String
  PARTITIONS : List String
  ModeMountedFile : String
  BackendModeChoices : List String

/-! ## Library calls -/

/-- The typed value a `pflag` flag holds. -/
inductive FlagValue where
  | string (s : String)
  | bool (b : Bool)
  | int (n : Int)
  | stringSlice (xs : List String)
  deriving DecidableEq, Repr

/-- A `pflag.Flag`: name, help text, current value, and whether the user set it. -/
structure Flag where
  Name : String
  Usage : String
  Value : FlagValue
  Changed : Bool
  deriving DecidableEq, Repr

/-- A `pflag.FlagSet`: its name and the flags defined on it, oldest first. -/
structure FlagSet where
  name : String
  formal : List Flag
  deriving DecidableEq, Repr

/-- The method `(*pflag.FlagSet).Lookup`: the flag of that name, or nil. -/
def FlagSet.Lookup (fs : FlagSet) (name : String) : Option Flag :=
  fs.formal.find? (fun f => f.Name == name)

/-- The method `(*pflag.FlagSet).AddFlag`: panics when the name is already defined. -/
def FlagSet.AddFlag (fs : FlagSet) (flag : Flag) : Except String FlagSet :=
  match fs.Lookup flag.Name with
  | some _ => .error (fs.name ++ " flag redefined: " ++ flag.Name)
  | none => .ok { fs with formal := fs.formal ++ [flag] }

/-- The value a flag holds after `Value.Set` with a value of its own kind: a
string slice replaces its default the first time it is set and is appended to
afterwards; a value of another kind does not parse. -/
def FlagValue.set (current : FlagValue) (changed : Bool) (value : FlagValue) :
    Option FlagValue :=
  match current, value with
  | .string _, .string x => some (.string x)
  | .bool _, .bool b => some (.bool b)
  | .int _, .int n => some (.int n)
  | .stringSlice old, .stringSlice xs => some (.stringSlice (if changed then old ++ xs else xs))
  | _, _ => none

/-- The method `(*pflag.FlagSet).Set`, which parsing a command line calls for a
flag that is given: an unknown flag or a value that does not parse is an error;
otherwise the flag takes the value and is marked as changed. -/
def FlagSet.Set (fs : FlagSet) (name : String) (value : FlagValue) :
    Except String FlagSet :=
  match fs.Lookup name with
  | none => .error ("no such flag -" ++ name)
  | some flag =>
    match flag.Value.set flag.Changed value with
    | none => .error ("invalid argument for \"" ++ name ++ "\" flag")
    | some v =>
      .ok { fs with
            formal := fs.formal.map fun f =>
              if f.Name == name then { f with Value := v, Changed := true } else f }

/-- The function `strings.ToLower`, on the ASCII letters. -/
def toLower (s : String) : String :=
  String.mk (s.data.map Char.toLower)

/-- The function `strings.Join`. -/
def stringsJoin (xs : List String) (sep : String) : String :=
  sep.intercalate xs

/-- What `fmt.Sprintf("%v", xs)` prints for a slice of strings. -/
def sprintSlice (xs : List String) : String :=
  "[" ++ " ".intercalate xs ++ "]"

/-- The flag bindings of a viper instance: `v.pflags`, a map from key to flag. -/
structure Viper where
  pflags : String → Option Flag

/-- The function `viper.BindPFlag`: a nil flag is an error and binds nothing; otherwise the
flag is stored under the lower-cased key.  The second component is the
returned error. -/
def Viper.BindPFlag (v : Viper) (key : String) (flag : Option Flag) :
    Viper × Option String :=
  match flag with
  | none => (v, some ("flag for \"" ++ key ++ "\" is nil"))
  | some f =>
    ({ pflags := fun k => if k = toLower key then some f else v.pflags k }, none)

/-- The `flag.ErrorHandling` of the standard library. -/
inductive ErrorHandling where
  | ContinueOnError
  | ExitOnError
  | PanicOnError
  deriving DecidableEq, Repr

/-- The `flag.FlagSet` of the standard library, as far as `init` touches it. -/
structure GoFlagSet where
  name : String
  errorHandling : ErrorHandling
  formal : List String
  parsed : Bool
  deriving DecidableEq, Repr

/-- The function `flag.NewFlagSet`: a flag set with no flag, not parsed yet. -/
def NewFlagSet (name : String) (errorHandling : ErrorHandling) : GoFlagSet :=
  { name := name, errorHandling := errorHandling, formal := [], parsed := false }

/-- The method `(*flag.FlagSet).Parse` on an empty argument list: nothing is
set, the flag set is marked as parsed and no error is returned. -/
def GoFlagSet.ParseNothing (fs : GoFlagSet) : GoFlagSet :=
  { fs with parsed := true }

/-- One library call made by `init`, with its arguments and what it returned. -/
inductive InitCall where
  /-- A flag constructor (`String`, `Bool`, `Int`, `StringSlice`) on `serverCmd.Flags()`. -/
  | define (name : String)
  /-- The call `serverCmd.Flags().Lookup(name)` and the name of the flag found. -/
  | lookup (name : String) (found : Option String)
  /-- The call `viper.BindPFlag(key, flag)` and the error it returned. -/
  | bind (key : String) (flag : Option String) (err : Option String)
  deriving DecidableEq, Repr

/-- The package-level state `init` works on. -/
structure State where
  serverCmd : FlagSet
  viper : Viper
  CommandLine : GoFlagSet
  rootCmd : List String
  calls : List InitCall

/-- Defining a flag on `serverCmd.Flags()` with default value `value`. -/
def State.define (s : State) (name : String) (value : FlagValue) (usage : String) :
    Except String State := do
  let fs ← s.serverCmd.AddFlag
    { Name := name, Usage := usage, Value := value, Changed := false }
  pure { s with serverCmd := fs, calls := s.calls ++ [.define name] }

/-- The call `serverCmd.Flags().String(name, value, usage)`. -/
def State.FlagsString (s : State) (name value usage : String) : Except String State :=
  s.define name (.string value) usage

/-- The call `serverCmd.Flags().Bool(name, value, usage)`. -/
def State.FlagsBool (s : State) (name : String) (value : Bool) (usage : String) :
    Except String State :=
  s.define name (.bool value) usage

/-- The call `serverCmd.Flags().Int(name, value, usage)`. -/
def State.FlagsInt (s : State) (name : String) (value : Int) (usage : String) :
    Except String State :=
  s.define name (.int value) usage

/-- The call `serverCmd.Flags().StringSlice(name, value, usage)`. -/
def State.FlagsStringSlice (s : State) (name : String) (value : List String)
    (usage : String) : Except String State :=
  s.define name (.stringSlice value) usage

/-- The statement `viper.BindPFlag(key, serverCmd.Flags().Lookup(name))`; the
returned error is dropped, as in the source. -/
def State.BindPFlag (s : State) (key name : String) : State :=
  let flag := s.serverCmd.Lookup name
  let r := s.viper.BindPFlag key flag
  { s with
    viper := r.1
    calls := s.calls ++
      [.lookup name (flag.map Flag.Name), .bind key (flag.map Flag.Name) r.2] }

/-! ## `init` -/

/-- The `init` function of `server.go`. -/
def init (ext : Externals) (s : State) : Except String State := do
  let s ← s.FlagsString "partition"
    ext.AwsPartitionID
    ("The AWS partition. Must be one of: " ++ sprintSlice ext.PARTITIONS)
  let s := s.BindPFlag "server.partition" "partition"

  let s ← s.FlagsString "generate-kubeconfig"
    "/etc/kubernetes/aws-iam-authenticator/kubeconfig.yaml"
    "Output `path` where a generated webhook kubeconfig (for `--authentication-token-webhook-config-file`) will be stored.  When running as a container, this should be a hostPath mount and the API server must be able to access the file."
  let s := s.BindPFlag "server.generateKubeconfig" "generate-kubeconfig"

  let s ← s.FlagsBool "kubeconfig-pregenerated"
    false
    "Set to `true` when a webhook kubeconfig is pre-generated by running the `init` command, and therefore the `server` shouldn\x27t unnecessarily re-generate a new one."
  let s := s.BindPFlag "server.kubeconfigPregenerated" "kubeconfig-pregenerated"

  let s ← s.FlagsString "state-dir"
    "/var/aws-iam-authenticator"
    "State `directory` for generated certificate and private key.  When running as a container, this should be a hostPath mount so that the certificate and key persisted across resarts."
  let s := s.BindPFlag "server.stateDir" "state-dir"

  let s ← s.FlagsString "kubeconfig"
    ""
    "kubeconfig file path for using a local kubeconfig to configure the client to talk to the API server for CRD and EKSConfigMap backends."
  let s := s.BindPFlag "server.kubeconfig" "kubeconfig"
  let s ← s.FlagsString "master"
    ""
    "master is the URL to the api server, which is merged with the kubeconfig for CRD and EKSConfigMap backends."
  let s := s.BindPFlag "server.master" "master"

  let s ← s.FlagsString "address"
    "127.0.0.1"
    "IP Address to bind the aws-iam-authenticator server to listen to. For example: 127.0.0.1 or 0.0.0.0"
  let s := s.BindPFlag "server.address" "address"

  let s ← s.FlagsStringSlice "backend-mode"
    [ext.ModeMountedFile]
    ("Ordered list of backends to get mappings from. The first one that returns a matching mapping wins. Comma-delimited list of: " ++ stringsJoin ext.BackendModeChoices ",")
  let s := s.BindPFlag "server.backendMode" "backend-mode"

  let s ← s.FlagsInt
    "port"
    DefaultPort
    "Port to bind the server to listen to"
  let s := s.BindPFlag "server.port" "port"

  let s ← s.FlagsInt
    "ec2-describeInstances-qps"
    DefaultEC2DescribeInstancesQps
    "AWS EC2 rate limiting with qps"
  let s := s.BindPFlag "server.ec2DescribeInstancesQps" "ec2-describeInstances-qps"

  let s ← s.FlagsInt
    "ec2-describeInstances-burst"
    DefaultEC2DescribeInstancesBurst
    "AWS EC2 rate Limiting with burst"
  let s := s.BindPFlag "server.ec2DescribeInstancesBurst" "ec2-describeInstances-burst"

  let fs := NewFlagSet "" .ContinueOnError
  let fs := fs.ParseNothing
  let s := { s with CommandLine := fs }

  pure { s with rootCmd := s.rootCmd ++ ["server"] }

/-- The state in which `init` starts: no flag is defined on `serverCmd` yet and
no call is logged; the bindings other files made on the global viper instance,
`flag.CommandLine` and the sub-commands already added to `rootCmd` are
whatever they are. -/
def State.start (v : Viper) (cl : GoFlagSet) (root : List String) : State :=
  { serverCmd := { name := "server", formal := [] }
    viper := v
    CommandLine := cl
    rootCmd := root
    calls := [] }

/-! ## `serverCmd.Run` -/

/-- What `serverCmd.Run` calls: the package variables it prints, the context
`signals.SetupSignalHandler()` returns, the `Done` channel of a context, the
result of `getConfig()` and the server `server.New` builds. -/
structure Collaborators (Context Chan Config Server Err : Type) where
  Version : String
  CommitID : String
  SetupSignalHandler : Context
  Done : Context → Chan
  getConfig : Except Err Config
  New : Context → Config → Server

/-- One call made by `serverCmd.Run`, with its arguments and what it returned. -/
inductive RunCall (Context Chan Config Server Err : Type) where
  | Printf (format : String) (args : List String)
  | InitMetrics
  | SetupSignalHandler (ctx : Context)
  | getConfig (result : Except Err Config)
  | Fatalf (format : String) (err : Err)
  | New (ctx : Context) (cfg : Config) (httpServer : Server)
  | Done (ctx : Context) (ch : Chan)
  | Run (httpServer : Server) (stopCh : Chan)

/-- How `serverCmd.Run` ends: it returns, or the process exits. -/
inductive Ending where
  | returned
  | exit (code : Nat)
  deriving DecidableEq, Repr

section Run

variable {Context Chan Config Server Err : Type}

/-- The `Run` function of `serverCmd`: the calls it makes, in order, and how it
ends.  `logrus.Fatalf` logs and then exits the process with status 1. -/
def serverCmd.Run (w : Collaborators Context Chan Config Server Err) :
    List (RunCall Context Chan Config Server Err) × Ending :=
  let log := [RunCall.Printf "Authenticator Version: %q, %q\n" [w.Version, w.CommitID]]
  let log := log ++ [.InitMetrics]

  let ctx := w.SetupSignalHandler
  let log := log ++ [.SetupSignalHandler ctx]

  let log := log ++ [.getConfig w.getConfig]
  match w.getConfig with
  | .error err => (log ++ [.Fatalf "%s" err], .exit 1)
  | .ok cfg =>
    let httpServer := w.New ctx cfg
    let log := log ++ [.New ctx cfg httpServer]
    let stopCh := w.Done ctx
    let log := log ++ [.Done ctx stopCh]
    (log ++ [.Run httpServer stopCh], .returned)

/-- The call is `signals.SetupSignalHandler()`, the one call that makes a context. -/
def RunCall.isSetupSignalHandler : RunCall Context Chan Config Server Err → Bool
  | .SetupSignalHandler _ => true
  | _ => false

/-- The call is `server.New`. -/
def RunCall.isNew : RunCall Context Chan Config Server Err → Bool
  | .New _ _ _ => true
  | _ => false

/-- The call is `httpServer.Run`. -/
def RunCall.isRun : RunCall Context Chan Config Server Err → Bool
  | .Run _ _ => true
  | _ => false

/-- The contexts a call receives or returns. -/
def RunCall.contexts : RunCall Context Chan Config Server Err → List Context
  | .SetupSignalHandler ctx => [ctx]
  | .New ctx _ _ => [ctx]
  | .Done ctx _ => [ctx]
  | _ => []

/-- The channels a call receives or returns. -/
def RunCall.chans : RunCall Context Chan Config Server Err → List Chan
  | .Done _ ch => [ch]
  | .Run _ stopCh => [stopCh]
  | _ => []

end Run

/-! ## Reading the result of `init` -/

/-- The key lies under the section `pre` of the configuration, i.e. starts with it. -/
def keyUnder (pre key : String) : Bool :=
  pre.data.isPrefixOf key.data

/-- The flag `name` is defined on `serverCmd` and `init` bound it to the
configuration key `key`, which lies under `server.`: the bind call was made
with that flag and returned no error, and the viper instance holds the flag
under the key. -/
def State.Exposes (s : State) (name key : String) : Prop :=
  ∃ f, s.serverCmd.Lookup name = some f ∧ f.Name = name ∧
    keyUnder "server." key = true ∧
    InitCall.bind key (some name) none ∈ s.calls ∧
    s.viper.pflags (toLower key) = some f

/-- The names of the flags defined, in the order of the calls. -/
def definedNames (calls : List InitCall) : List String :=
  calls.filterMap fun
    | .define name => some name
    | _ => none

/-- The pairs (key as viper stores it, flag name) of the bind calls that bound
a flag, in the order of the calls. -/
def boundPairs (calls : List InitCall) : List (String × String) :=
  calls.filterMap fun
    | .bind key (some name) none => some (toLower key, name)
    | _ => none

/-- The number of `viper.BindPFlag` calls in the log, failed ones included. -/
def bindCalls (calls : List InitCall) : Nat :=
  calls.countP fun
    | .bind _ _ _ => true
    | _ => false

/-- Every lookup in the log asks for a name among `defined` or defined
earlier in the log and finds that flag, and every bind call is given a flag
and returns no error. -/
def lookupsFind : List String → List InitCall → Bool
  | _, [] => true
  | defined, .define name :: rest => lookupsFind (defined ++ [name]) rest
  | defined, .lookup name found :: rest =>
    defined.contains name && found == some name && lookupsFind defined rest
  | defined, .bind _ flag err :: rest =>
    flag.isSome && err.isNone && lookupsFind defined rest

/-- The correspondence between the `n` flags of `serverCmd` and `n`
configuration keys: `n` flags are defined and `n` bind calls are made, every
bind call looks up a flag defined earlier, every flag is bound exactly once,
flag names are pairwise different, keys are pairwise different, and viper
holds under each key the flag bound to it. -/
def State.OneToOne (s : State) (n : Nat) : Prop :=
  s.serverCmd.formal.length = n ∧
  bindCalls s.calls = n ∧
  (boundPairs s.calls).length = n ∧
  lookupsFind [] s.calls = true ∧
  definedNames s.calls = s.serverCmd.formal.map Flag.Name ∧
  (∀ f ∈ s.serverCmd.formal,
    ((boundPairs s.calls).filter fun kn => kn.2 == f.Name).length = 1) ∧
  (s.serverCmd.formal.map Flag.Name).Nodup ∧
  ((boundPairs s.calls).map Prod.fst).Nodup ∧
  (∀ kn ∈ boundPairs s.calls, s.viper.pflags kn.1 = s.serverCmd.Lookup kn.2)

/-! ## The identity mapper and the rate budget -/

/-- Modelled from the spec: the Principal of section 3, produced by the token
verifier of `pkg/token`, which is not among the sources. -/
structure Principal where
  account : String
  principalType : String
  name : String
  sessionName : Option String
  sourceInstance : Option String
  deriving DecidableEq, Repr

/-- Modelled from the spec: the MappingRule of section 3 (pattern, username
template, group list), owned by the backends of `pkg/mapper`, which are not
among the sources. -/
structure MappingRule where
  pattern : String
  username : String
  groups : List String
  deriving DecidableEq, Repr

/-- Modelled from the spec: the BackendSnapshot of section 3, an ordered
collection of rules with a version counter; `pkg/mapper` is not among the
sources. -/
structure BackendSnapshot where
  rules : List MappingRule
  version : Nat
  deriving DecidableEq, Repr

/-- Modelled from the spec: the username and groups the identity mapper of
section 4.3 returns; `pkg/server` is not among the sources. -/
structure ClusterIdentity where
  username : String
  groups : List String
  deriving DecidableEq, Repr

/-- Modelled from the spec: the failures of the instance resolver of section
4.4, whose code in `pkg/ec2provider` is not among the sources. -/
inductive ResolveError where
  | RateLimited
  | NotFound
  | UpstreamError
  deriving DecidableEq, Repr

/-- Modelled from the spec: the failures of the identity mapper of section 4.3,
whose code in `pkg/server` is not among the sources: no mapping was found, or
the instance resolver consulted for an instance-profile principal failed and
its failure is surfaced. -/
inductive MapperError where
  | NoMappingFound
  | Resolver (e : ResolveError)
  deriving DecidableEq, Repr

/-- Modelled from the spec: what section 4.3 uses without defining it, the code
in `pkg/mapper`, `pkg/server` and `pkg/ec2provider` not being among the
sources: the normalized ARN of a principal, whether a pattern matches an ARN,
the rendering of the username and groups of a rule for a principal (which can
fail), how a root-account principal and an instance-profile principal are
recognised, the role ARN the instance resolver of section 4.4 yields for an
instance-profile principal, and the fixed reserved identity of the root
account. -/
structure Rules where
  normalizedARN : Principal → String
  isMatch : String → String → Bool
  render : MappingRule → Principal → Option ClusterIdentity
  isRootAccount : Principal → Bool
  isInstanceProfile : Principal → Bool
  resolveInstance : Principal → Except ResolveError String
  rootIdentity : ClusterIdentity

/-- Modelled from the spec: the ARN a principal is matched by (section 4.3;
`pkg/server` is not among the sources): an instance-profile principal is first
redirected through the instance resolver to obtain its effective role ARN;
any other principal is matched by its normalized ARN. -/
def effectiveARN (m : Rules) (p : Principal) : Except MapperError String :=
  if m.isInstanceProfile p then
    match m.resolveInstance p with
    | .ok arn => .ok arn
    | .error e => .error (.Resolver e)
  else .ok (m.normalizedARN p)

/-- Modelled from the spec: the lookup in one backend (section 4.3; the
backends of `pkg/mapper` are not among the sources): rules are matched in the
order the source declared them and the first rule whose pattern matches the
ARN wins. -/
def BackendSnapshot.firstMatch (m : Rules) (b : BackendSnapshot) (arn : String) :
    Option MappingRule :=
  b.rules.find? fun r => m.isMatch r.pattern arn

/-- Modelled from the spec: the backend iteration of the identity mapper
(section 4.3; the mapper of `pkg/server` is not among the sources): backends
are consulted in the configured order, evaluation stops at the first backend
with a matching rule, that rule is rendered, and a rendering failure or no
match at all is NoMappingFound. -/
def matchBackends (m : Rules) :
    List BackendSnapshot → String → Principal → Except MapperError ClusterIdentity
  | [], _, _ => .error .NoMappingFound
  | b :: rest, arn, p =>
    match b.firstMatch m arn with
    | some r =>
      match m.render r p with
      | some id => .ok id
      | none => .error .NoMappingFound
    | none => matchBackends m rest arn p

/-- Modelled from the spec: the identity mapper of section 4.3, whose code in
`pkg/server` is not among the sources: a root-account principal maps to the
fixed reserved identity without consulting any backend; any other principal is
matched by its effective ARN against the backends in the configured order. -/
def identityMapper (m : Rules) (backends : List BackendSnapshot) (p : Principal) :
    Except MapperError ClusterIdentity :=
  if m.isRootAccount p then .ok m.rootIdentity
  else
    match effectiveARN m p with
    | .error e => .error e
    | .ok arn => matchBackends m backends arn p

/-- Modelled from the spec: the RateBudget of section 3 (capacity, refill
rate, current tokens, last-refill timestamp), whose code in `pkg/ec2provider`
is not among the sources.  Time is counted in whole seconds. -/
structure RateBudget where
  capacity : Nat
  refillRate : Nat
  tokens : Nat
  lastRefill : Nat
  deriving DecidableEq, Repr

/-- Modelled from the spec: a budget configured with the refill rate `qps` and
the capacity `burst` starts full, as the 2-token bucket of section 8 that
admits two lookups; the code in `pkg/ec2provider` is not among the sources. -/
def RateBudget.new (qps burst : Int) (now : Nat) : RateBudget :=
  { capacity := burst.toNat, refillRate := qps.toNat, tokens := burst.toNat,
    lastRefill := now }

/-- Modelled from the spec: the refill of the token bucket of section 3, up to
its capacity; the code in `pkg/ec2provider` is not among the sources. -/
def RateBudget.refill (b : RateBudget) (now : Nat) : RateBudget :=
  if now ≤ b.lastRefill then b
  else
    { b with
      tokens := min b.capacity (b.tokens + (now - b.lastRefill) * b.refillRate)
      lastRefill := now }

/-- Modelled from the spec: a cache miss consumes one unit of the budget and
fails RateLimited at once if no token is available (section 4.4); the code in
`pkg/ec2provider` is not among the sources. -/
def RateBudget.consume (b : RateBudget) (now : Nat) : Except ResolveError RateBudget :=
  let b := b.refill now
  if b.tokens = 0 then .error .RateLimited
  else .ok { b with tokens := b.tokens - 1 }

/-- Modelled from the spec: the ordered backend-mode list of the configuration
surface (section 6), which `getConfig`, not among the sources, hands to the
core: the value of the `backend-mode` flag of `serverCmd`, in its order. -/
def State.backendMode (s : State) : List String :=
  match s.serverCmd.Lookup "backend-mode" with
  | some f =>
    match f.Value with
    | .stringSlice modes => modes
    | _ => []
  | none => []

/-- Modelled from the spec: the ordered list of backends the identity mapper
iterates (section 4.3; `pkg/server` is not among the sources): one backend per
entry of the backend-mode list, in the order of the list; `backendOf` is the
current snapshot of the backend a mode names. -/
def State.backends (s : State) (backendOf : String → BackendSnapshot) :
    List BackendSnapshot :=
  s.backendMode.map backendOf

/-- The order of the backend-mode list is the resolution priority for the
principal `p`: the identity mapper returns an identity exactly when the list
splits into modes whose backends have no matching rule, then a mode whose
backend has a first matching rule that renders to that identity, then any
further modes, matching or not. -/
def FirstMatchWins (m : Rules) (backendOf : String → BackendSnapshot) (s : State)
    (p : Principal) : Prop :=
  ∀ id, identityMapper m (s.backends backendOf) p = .ok id ↔
    ∃ arn pre mode post r, effectiveARN m p = .ok arn ∧
      s.backendMode = pre ++ mode :: post ∧
      (∀ x ∈ pre, (backendOf x).firstMatch m arn = none) ∧
      (backendOf mode).firstMatch m arn = some r ∧
      m.render r p = some id

/-- The state after `init` and a command line that gives `--backend-mode` with
the list `modes`. -/
def configure (ext : Externals) (s : State) (modes : List String) :
    Except String State := do
  let s ← init ext s
  let fs ← s.serverCmd.Set "backend-mode" (.stringSlice modes)
  pure { s with serverCmd := fs }

/-! ## Concrete inputs -/

/-- Sample values for the identifiers of `pkg/endpoints` and `pkg/mapper`. -/
def exampleExternals : Externals :=
  { AwsPartitionID := "aws"
    PARTITIONS := ["aws", "aws-cn", "aws-us-gov"]
    ModeMountedFile := "MountedFile"
    BackendModeChoices := ["MountedFile", "EKSConfigMap", "CRD", "DynamicFile"] }

/-- A start state in which viper holds no binding yet. -/
def exampleStart : State :=
  State.start { pflags := fun _ => none } (NewFlagSet "go" .ExitOnError) []

/-- Collaborators whose `getConfig` succeeds: contexts, channels and servers
are numbers, the configuration and the error are strings. -/
def exampleCollaborators : Collaborators Nat Nat String Nat String :=
  { Version := "v0.6.0"
    CommitID := "abcdef"
    SetupSignalHandler := 7
    Done := fun ctx => ctx + 100
    getConfig := .ok "cfg"
    New := fun ctx _ => ctx + 1000 }

/-- Collaborators whose `getConfig` fails. -/
def failingCollaborators : Collaborators Nat Nat String Nat String :=
  { exampleCollaborators with getConfig := .error "no cluster ID" }

/-- Rules whose pattern is an exact ARN and whose rendering copies the
username and the groups; the root account is the principal of type `root`, an
instance profile is the principal of type `instance-profile`, and the instance
`i-0abc123` runs under the role `node`. -/
def exactRules : Rules :=
  { normalizedARN := fun p =>
      "arn:aws:iam::" ++ p.account ++ ":" ++ p.principalType ++ "/" ++ p.name
    isMatch := fun pattern arn => pattern == arn
    render := fun r _ => some { username := r.username, groups := r.groups }
    isRootAccount := fun p => p.principalType == "root"
    isInstanceProfile := fun p => p.principalType == "instance-profile"
    resolveInstance := fun p =>
      if p.sourceInstance == some "i-0abc123" then
        .ok "arn:aws:iam::111122223333:role/node"
      else .error .NotFound
    rootIdentity := { username := "reserved:root", groups := [] } }

/-- The principal `arn:aws:iam::111122223333:role/node`. -/
def examplePrincipal : Principal :=
  { account := "111122223333", principalType := "role", name := "node",
    sessionName := some "i-0abc123", sourceInstance := none }

/-- The instance profile of the instance `i-0abc123`. -/
def instancePrincipal : Principal :=
  { account := "111122223333", principalType := "instance-profile", name := "node-profile",
    sessionName := none, sourceInstance := some "i-0abc123" }

/-- The root account of `111122223333`. -/
def rootPrincipal : Principal :=
  { account := "111122223333", principalType := "root", name := "root",
    sessionName := none, sourceInstance := none }

/-- A rule that maps the example principal to a node identity. -/
def ruleA : MappingRule :=
  { pattern := "arn:aws:iam::111122223333:role/node"
    username := "system:node:a"
    groups := ["system:nodes"] }

/-- A rule that maps the root account to an administrator identity. -/
def ruleRoot : MappingRule :=
  { pattern := "arn:aws:iam::111122223333:root/root"
    username := "admin"
    groups := ["system:masters"] }

/-- A backend that maps the example principal to a node identity. -/
def backendA : BackendSnapshot :=
  { rules := [ruleA], version := 1 }

/-- A backend that maps the example principal, and the root account, to an
administrator identity. -/
def backendB : BackendSnapshot :=
  { rules := [{ pattern := "arn:aws:iam::111122223333:role/node",
                username := "admin", groups := ["system:masters"] },
              ruleRoot]
    version := 1 }

/-- A backend with no rule for the example principal. -/
def backendNone : BackendSnapshot :=
  { rules := [{ pattern := "arn:aws:iam::111122223333:role/other",
                username := "other", groups := [] }]
    version := 3 }

/-- The backends behind three backend modes. -/
def exampleBackendOf (mode : String) : BackendSnapshot :=
  if mode == "MountedFile" then backendNone
  else if mode == "EKSConfigMap" then backendA
  else if mode == "CRD" then backendB
  else { rules := [], version := 0 }

/-- The state after `init` and `--backend-mode MountedFile,EKSConfigMap,CRD`. -/
def exampleConfigured : State :=
  match configure exampleExternals exampleStart ["MountedFile", "EKSConfigMap", "CRD"] with
  | .ok s => s
  | .error _ => exampleStart

/-- The state after `init` and `--backend-mode CRD`. -/
def exampleConfiguredCRD : State :=
  match configure exampleExternals exampleStart ["CRD"] with
  | .ok s => s
  | .error _ => exampleStart

/-! ## Theorems about `init` -/

/-- C1: started with no flag on `serverCmd`, `init` succeeds, and for each item
of the configuration surface (backend-mode list, rate-limit QPS and burst,
bind address and port, state directory, pregenerated flag, partition) it has
defined a flag on `serverCmd` and bound it to a key under `server.`. -/
theorem init_exposes_configuration_surface (ext : Externals) (v : Viper)
    (cl : GoFlagSet) (root : List String) :
    ∃ s, init ext (State.start v cl root) = .ok s ∧
      s.Exposes "backend-mode" "server.backendMode" ∧
      s.Exposes "ec2-describeInstances-qps" "server.ec2DescribeInstancesQps" ∧
      s.Exposes "ec2-describeInstances-burst" "server.ec2DescribeInstancesBurst" ∧
      s.Exposes "address" "server.address" ∧
      s.Exposes "port" "server.port" ∧
      s.Exposes "state-dir" "server.stateDir" ∧
      s.Exposes "kubeconfig-pregenerated" "server.kubeconfigPregenerated" ∧
      s.Exposes "partition" "server.partition" := by
  simp [init, State.start, State.FlagsString, State.FlagsBool, State.FlagsInt,
    State.FlagsStringSlice, State.define, State.BindPFlag, FlagSet.AddFlag,
    FlagSet.Lookup, Viper.BindPFlag, bind, Except.bind, pure, Except.pure,
    State.Exposes, keyUnder, toLower]

/-- C4: after `init`, with neither `--address` nor `--port` given, the address
flag holds the loopback address 127.0.0.1 and the port flag holds
DefaultPort = 21362, which lies between 1 and 65535. -/
theorem init_default_bind_is_localhost (ext : Externals) (v : Viper)
    (cl : GoFlagSet) (root : List String) :
    ∃ s fa fp, init ext (State.start v cl root) = .ok s ∧
      s.serverCmd.Lookup "address" = some fa ∧ fa.Changed = false ∧
      fa.Value = .string "127.0.0.1" ∧
      s.serverCmd.Lookup "port" = some fp ∧ fp.Changed = false ∧
      fp.Value = .int DefaultPort ∧
      DefaultPort = 21362 ∧ 1 ≤ DefaultPort ∧ DefaultPort ≤ 65535 := by
  simp [init, State.start, State.FlagsString, State.FlagsBool, State.FlagsInt,
    State.FlagsStringSlice, State.define, State.BindPFlag, FlagSet.AddFlag,
    FlagSet.Lookup, Viper.BindPFlag, bind, Except.bind, pure, Except.pure,
    DefaultPort]

/-- C6: after `init`, with `--backend-mode` not given, the backend-mode flag
holds exactly the one-element list [mapper.ModeMountedFile], so the list has
no two positions whose backends could conflict. -/
theorem init_default_backend_mode_mounted_file (ext : Externals) (v : Viper)
    (cl : GoFlagSet) (root : List String) :
    ∃ s f modes, init ext (State.start v cl root) = .ok s ∧
      s.serverCmd.Lookup "backend-mode" = some f ∧ f.Changed = false ∧
      f.Value = .stringSlice modes ∧
      modes = [ext.ModeMountedFile] ∧ modes.length = 1 ∧
      ∀ i j : Fin modes.length, i = j := by
  simp [init, State.start, State.FlagsString, State.FlagsBool, State.FlagsInt,
    State.FlagsStringSlice, State.define, State.BindPFlag, FlagSet.AddFlag,
    FlagSet.Lookup, Viper.BindPFlag, bind, Except.bind, pure, Except.pure]
  intro i j
  exact Subsingleton.elim i j

/-- The default budget admits a lookup: a budget built from the default QPS
and burst has a token for the first cache miss, whenever that happens. -/
theorem RateBudget.default_admits (created now : Nat) :
    ∃ b, (RateBudget.new DefaultEC2DescribeInstancesQps
      DefaultEC2DescribeInstancesBurst created).consume now = .ok b ∧
      b.tokens + 1 = 5 := by
  unfold RateBudget.consume RateBudget.refill RateBudget.new
  simp only [DefaultEC2DescribeInstancesQps, DefaultEC2DescribeInstancesBurst]
  by_cases h : now ≤ created
  · simp [h]
  · have h5 : min 5 (5 + (now - created) * 15) = 5 := by omega
    simp [h, h5]

/-- C5: after `init`, with the flags not given, the integer flag
ec2-describeInstances-qps holds DefaultEC2DescribeInstancesQps = 15 and the
integer flag ec2-describeInstances-burst holds
DefaultEC2DescribeInstancesBurst = 5; both are strictly positive, and a token
bucket with this refill rate and capacity admits a cache-miss lookup. -/
theorem init_default_rate_budget_usable (ext : Externals) (v : Viper)
    (cl : GoFlagSet) (root : List String) (created now : Nat) :
    ∃ s fq fb, init ext (State.start v cl root) = .ok s ∧
      s.serverCmd.Lookup "ec2-describeInstances-qps" = some fq ∧
      fq.Changed = false ∧ fq.Value = .int DefaultEC2DescribeInstancesQps ∧
      s.serverCmd.Lookup "ec2-describeInstances-burst" = some fb ∧
      fb.Changed = false ∧ fb.Value = .int DefaultEC2DescribeInstancesBurst ∧
      DefaultEC2DescribeInstancesQps = 15 ∧ DefaultEC2DescribeInstancesBurst = 5 ∧
      0 < DefaultEC2DescribeInstancesQps ∧ 0 < DefaultEC2DescribeInstancesBurst ∧
      ∃ b, (RateBudget.new DefaultEC2DescribeInstancesQps
        DefaultEC2DescribeInstancesBurst created).consume now = .ok b := by
  have flags : ∃ s fq fb, init ext (State.start v cl root) = .ok s ∧
      s.serverCmd.Lookup "ec2-describeInstances-qps" = some fq ∧
      fq.Changed = false ∧ fq.Value = .int DefaultEC2DescribeInstancesQps ∧
      s.serverCmd.Lookup "ec2-describeInstances-burst" = some fb ∧
      fb.Changed = false ∧ fb.Value = .int DefaultEC2DescribeInstancesBurst := by
    simp [init, State.start, State.FlagsString, State.FlagsBool, State.FlagsInt,
      State.FlagsStringSlice, State.define, State.BindPFlag, FlagSet.AddFlag,
      FlagSet.Lookup, Viper.BindPFlag, bind, Except.bind, pure, Except.pure]
  obtain ⟨s, fq, fb, h1, h2, h3, h4, h5, h6, h7⟩ := flags
  obtain ⟨b, hb, -⟩ := RateBudget.default_admits created now
  exact ⟨s, fq, fb, h1, h2, h3, h4, h5, h6, h7, rfl, rfl, by decide, by decide, b, hb⟩

/-- C8, as stated, fails: on the sample start state `init` does not set up a
correspondence between ten flags and ten keys, because it defines eleven. -/
theorem init_not_ten_flags :
    ¬ ∃ s, init exampleExternals exampleStart = .ok s ∧ s.OneToOne 10 := by
  simp [init, exampleStart, State.start, State.FlagsString, State.FlagsBool, State.FlagsInt,
    State.FlagsStringSlice, State.define, State.BindPFlag, FlagSet.AddFlag,
    FlagSet.Lookup, Viper.BindPFlag, bind, Except.bind, pure, Except.pure,
    State.OneToOne]

/-- C8, amended: `init` sets up a one-to-one correspondence between the eleven
flags it defines on `serverCmd` and eleven configuration keys: every
`viper.BindPFlag` call looks up a flag defined earlier in `init` and gets it,
every flag is bound exactly once, no two flags share a name, no two flags are
bound to the same key, and viper holds each flag under its key. -/
theorem init_eleven_flags_one_to_one (ext : Externals) (v : Viper)
    (cl : GoFlagSet) (root : List String) :
    ∃ s, init ext (State.start v cl root) = .ok s ∧ s.OneToOne 11 := by
  simp [init, State.start, State.FlagsString, State.FlagsBool, State.FlagsInt,
    State.FlagsStringSlice, State.define, State.BindPFlag, FlagSet.AddFlag,
    FlagSet.Lookup, Viper.BindPFlag, bind, Except.bind, pure, Except.pure,
    State.OneToOne, bindCalls, boundPairs, lookupsFind, definedNames, toLower]
  intro key name
  refine ⟨?_, ?_, ?_, ?_, ?_, ?_, ?_, ?_, ?_, ?_, ?_⟩ <;>
    (rintro rfl rfl; simp)

/-! ## Theorems about `serverCmd.Run` -/

section RunTheorems

variable {Context Chan Config Server Err : Type}

/-- C3: `Run` makes exactly one context, the one of the signal handler; every
context any of its calls receives is that context and every channel is the
`Done` channel of that context; when `getConfig` succeeds, `server.New` receives
that context and `httpServer.Run` receives its `Done` channel as stop signal. -/
theorem Run_single_cancellation_source
    (w : Collaborators Context Chan Config Server Err) :
    (serverCmd.Run w).1.filter RunCall.isSetupSignalHandler =
      [.SetupSignalHandler w.SetupSignalHandler] ∧
    (∀ call ∈ (serverCmd.Run w).1, ∀ ctx ∈ call.contexts, ctx = w.SetupSignalHandler) ∧
    (∀ call ∈ (serverCmd.Run w).1, ∀ ch ∈ call.chans,
      ch = w.Done w.SetupSignalHandler) ∧
    (∀ cfg, w.getConfig = .ok cfg →
      (serverCmd.Run w).1.filter RunCall.isNew =
        [.New w.SetupSignalHandler cfg (w.New w.SetupSignalHandler cfg)] ∧
      (serverCmd.Run w).1.filter RunCall.isRun =
        [.Run (w.New w.SetupSignalHandler cfg) (w.Done w.SetupSignalHandler)]) := by
  unfold serverCmd.Run
  cases h : w.getConfig with
  | error err =>
    simp [RunCall.isSetupSignalHandler, RunCall.contexts, RunCall.chans]
  | ok cfg =>
    simp [RunCall.isSetupSignalHandler, RunCall.isNew, RunCall.isRun,
      RunCall.contexts, RunCall.chans]

/-- Witness of C3 on collaborators whose `getConfig` succeeds. -/
theorem Run_single_cancellation_source_witness :
    ((serverCmd.Run exampleCollaborators).1.filter RunCall.isNew =
        [.New 7 "cfg" 1007] ∧
      (serverCmd.Run exampleCollaborators).1.filter RunCall.isRun =
        [.Run 1007 107]) ∧
    (7 : Nat) = exampleCollaborators.SetupSignalHandler ∧
    (107 : Nat) = exampleCollaborators.Done exampleCollaborators.SetupSignalHandler :=
  ⟨(Run_single_cancellation_source exampleCollaborators).2.2.2 "cfg" rfl,
   (Run_single_cancellation_source exampleCollaborators).2.1 (.New 7 "cfg" 1007)
     (by simp [serverCmd.Run, exampleCollaborators]) 7 (by simp [RunCall.contexts]),
   (Run_single_cancellation_source exampleCollaborators).2.2.1 (.Run 1007 107)
     (by simp [serverCmd.Run, exampleCollaborators]) 107 (by simp [RunCall.chans])⟩

/-- C7: if `getConfig` fails, `Run` ends in `logrus.Fatalf` with that error and
the process exits, with no call of `server.New` or `httpServer.Run`; if it
succeeds, `server.New` is called exactly once, with the signal context and
exactly the configuration returned, and `httpServer.Run` is called exactly
once, on the server `server.New` returned, as the last call, after the metrics
initialisation, the signal-handler setup and `server.New`, in this order. -/
theorem Run_starts_server_only_with_config
    (w : Collaborators Context Chan Config Server Err) :
    (∀ err, w.getConfig = .error err →
      (serverCmd.Run w).2 = .exit 1 ∧
      (serverCmd.Run w).1.getLast? = some (.Fatalf "%s" err) ∧
      (serverCmd.Run w).1.filter RunCall.isNew = [] ∧
      (serverCmd.Run w).1.filter RunCall.isRun = []) ∧
    (∀ cfg, w.getConfig = .ok cfg →
      (serverCmd.Run w).2 = .returned ∧
      (serverCmd.Run w).1.filter RunCall.isNew =
        [.New w.SetupSignalHandler cfg (w.New w.SetupSignalHandler cfg)] ∧
      (serverCmd.Run w).1.filter RunCall.isRun =
        [.Run (w.New w.SetupSignalHandler cfg) (w.Done w.SetupSignalHandler)] ∧
      ∃ l₁ l₂ l₃ l₄, (serverCmd.Run w).1 =
        l₁ ++ .InitMetrics :: l₂ ++ .SetupSignalHandler w.SetupSignalHandler :: l₃ ++
          .New w.SetupSignalHandler cfg (w.New w.SetupSignalHandler cfg) :: l₄ ++
          [.Run (w.New w.SetupSignalHandler cfg) (w.Done w.SetupSignalHandler)]) := by
  unfold serverCmd.Run
  constructor
  · intro err h
    simp [h, RunCall.isNew, RunCall.isRun]
  · intro cfg h
    simp only [h]
    refine ⟨by simp, by simp [RunCall.isNew], by simp [RunCall.isRun], ?_⟩
    exact ⟨[.Printf "Authenticator Version: %q, %q\n" [w.Version, w.CommitID]], [],
      [.getConfig (.ok cfg)], [.Done w.SetupSignalHandler (w.Done w.SetupSignalHandler)],
      by simp⟩

/-- Witness of C7 on collaborators whose `getConfig` fails and on collaborators
whose `getConfig` succeeds. -/
theorem Run_starts_server_only_with_config_witness :
    ((serverCmd.Run failingCollaborators).2 = .exit 1 ∧
      (serverCmd.Run failingCollaborators).1.getLast? =
        some (.Fatalf "%s" "no cluster ID") ∧
      (serverCmd.Run failingCollaborators).1.filter RunCall.isNew = [] ∧
      (serverCmd.Run failingCollaborators).1.filter RunCall.isRun = []) ∧
    ((serverCmd.Run exampleCollaborators).2 = .returned ∧
      (serverCmd.Run exampleCollaborators).1.filter RunCall.isNew =
        [.New 7 "cfg" 1007] ∧
      (serverCmd.Run exampleCollaborators).1.filter RunCall.isRun =
        [.Run 1007 107]) :=
  ⟨(Run_starts_server_only_with_config failingCollaborators).1 "no cluster ID" rfl,
   ((Run_starts_server_only_with_config exampleCollaborators).2 "cfg" rfl).1,
   ((Run_starts_server_only_with_config exampleCollaborators).2 "cfg" rfl).2.1,
   ((Run_starts_server_only_with_config exampleCollaborators).2 "cfg" rfl).2.2.1⟩

end RunTheorems

/-! ## Theorems about the identity mapper -/

/-- The backend iteration returns an identity exactly when the list of backends
splits into backends without a matching rule, then a backend whose first
matching rule renders to that identity, then any further backends. -/
theorem matchBackends_ok_iff (m : Rules) (backends : List BackendSnapshot)
    (arn : String) (p : Principal) (id : ClusterIdentity) :
    matchBackends m backends arn p = .ok id ↔
      ∃ pre a post r, backends = pre ++ a :: post ∧
        (∀ b ∈ pre, b.firstMatch m arn = none) ∧
        a.firstMatch m arn = some r ∧ m.render r p = some id := by
  induction backends with
  | nil => simp [matchBackends]
  | cons b rest ih =>
    constructor
    · intro h
      unfold matchBackends at h
      cases hb : b.firstMatch m arn with
      | none =>
        rw [hb] at h
        obtain ⟨pre, a, post, r, hsplit, hpre, ha, hr⟩ := ih.mp h
        refine ⟨b :: pre, a, post, r, by simp [hsplit], ?_, ha, hr⟩
        intro b' hb'
        rcases List.mem_cons.mp hb' with rfl | hmem
        · exact hb
        · exact hpre b' hmem
      | some r =>
        rw [hb] at h
        cases hr : m.render r p with
        | none => simp [hr] at h
        | some id' =>
          simp [hr] at h
          exact ⟨[], b, rest, r, rfl, by simp, hb, by rw [hr, h]⟩
    · rintro ⟨pre, a, post, r, hsplit, hpre, ha, hr⟩
      cases pre with
      | nil =>
        simp at hsplit
        obtain ⟨rfl, rfl⟩ := hsplit
        simp [matchBackends, ha, hr]
      | cons b' pre' =>
        simp at hsplit
        obtain ⟨rfl, rfl⟩ := hsplit
        have hb : b.firstMatch m arn = none := hpre b (by simp)
        unfold matchBackends
        rw [hb]
        exact ih.mpr ⟨pre', a, post, r, rfl,
          fun b' hb' => hpre b' (List.mem_cons_of_mem _ hb'), ha, hr⟩

/-- A list of modes splits where the list of their backends splits. -/
theorem map_eq_append_cons_iff (backendOf : String → BackendSnapshot)
    (modes : List String) (pre : List BackendSnapshot) (a : BackendSnapshot)
    (post : List BackendSnapshot) :
    modes.map backendOf = pre ++ a :: post ↔
      ∃ pre' mode post', modes = pre' ++ mode :: post' ∧ pre'.map backendOf = pre ∧
        backendOf mode = a ∧ post'.map backendOf = post := by
  constructor
  · intro h
    obtain ⟨l₁, l₂, rfl, h₁, h₂⟩ := List.map_eq_append_iff.mp h
    obtain ⟨mode, l₃, rfl, h₃, h₄⟩ := List.map_eq_cons_iff.mp h₂
    exact ⟨l₁, mode, l₃, rfl, h₁, h₃, h₄⟩
  · rintro ⟨pre', mode, post', rfl, rfl, rfl, rfl⟩
    simp

/-- C2, as stated, fails: with the backend-mode list [CRD], whose backend has a
rule for the root account, first-match-wins does not hold for the root
account, which gets the fixed reserved identity and not the identity of that
rule. -/
theorem identityMapper_root_bypasses_backends :
    ¬ FirstMatchWins exactRules exampleBackendOf exampleConfiguredCRD rootPrincipal := by
  intro h
  have hmodes : exampleConfiguredCRD.backendMode = ["CRD"] := by decide
  have hmap : identityMapper exactRules (exampleConfiguredCRD.backends exampleBackendOf)
      rootPrincipal = .ok { username := "admin", groups := ["system:masters"] } :=
    (h _).mpr ⟨"arn:aws:iam::111122223333:root/root", [], "CRD", [], ruleRoot,
      by simp [effectiveARN, exactRules, rootPrincipal],
      hmodes, by simp, by decide, by decide⟩
  have hroot : identityMapper exactRules (exampleConfiguredCRD.backends exampleBackendOf)
      rootPrincipal = .ok { username := "reserved:root", groups := [] } := by
    simp [identityMapper, exactRules, rootPrincipal]
  rw [hroot] at hmap
  simp at hmap

/-- C2, amended: for every principal that is not a root account, the order of
the backend-mode list is the resolution priority: the identity returned is the
one of the first mode in the list whose backend has a rule matching the
effective ARN of the principal, whatever the backends of later modes hold. -/
theorem identityMapper_first_match_wins (m : Rules)
    (backendOf : String → BackendSnapshot) (s : State) (p : Principal)
    (hroot : m.isRootAccount p = false) :
    FirstMatchWins m backendOf s p := by
  intro id
  unfold identityMapper State.backends
  simp only [hroot, Bool.false_eq_true, if_false]
  cases harn : effectiveARN m p with
  | error e => simp
  | ok arn =>
    simp only [matchBackends_ok_iff, map_eq_append_cons_iff]
    constructor
    · rintro ⟨pre, a, post, r, ⟨pre', mode, post', hsplit, rfl, rfl, rfl⟩, hpre, ha, hr⟩
      refine ⟨arn, pre', mode, post', r, rfl, hsplit, ?_, ha, hr⟩
      intro x hx
      exact hpre _ (List.mem_map_of_mem _ hx)
    · rintro ⟨arn', pre', mode, post', r, harn', hsplit, hpre, ha, hr⟩
      cases harn'
      refine ⟨pre'.map backendOf, backendOf mode, post'.map backendOf, r,
        ⟨pre', mode, post', hsplit, rfl, rfl, rfl⟩, ?_, ha, hr⟩
      intro b hb
      obtain ⟨x, hx, rfl⟩ := List.mem_map.mp hb
      exact hpre x hx

/-- Witness of C2: with the backend-mode list [MountedFile, EKSConfigMap, CRD]
the first backend has no rule for the principal, the second and the third both
match; the identity is that of the second, for a role and for an instance
profile redirected to that role. -/
theorem identityMapper_first_match_wins_witness :
    exactRules.isRootAccount examplePrincipal = false ∧
    exampleConfigured.backendMode = ["MountedFile", "EKSConfigMap", "CRD"] ∧
    (exampleBackendOf "CRD").firstMatch exactRules
      "arn:aws:iam::111122223333:role/node" ≠ none ∧
    identityMapper exactRules (exampleConfigured.backends exampleBackendOf)
      examplePrincipal = .ok { username := "system:node:a", groups := ["system:nodes"] } ∧
    identityMapper exactRules (exampleConfigured.backends exampleBackendOf)
      instancePrincipal = .ok { username := "system:node:a", groups := ["system:nodes"] } :=
  ⟨by decide, by decide, by decide,
   (identityMapper_first_match_wins exactRules exampleBackendOf exampleConfigured
      examplePrincipal (by decide) _).mpr
     ⟨"arn:aws:iam::111122223333:role/node", ["MountedFile"], "EKSConfigMap", ["CRD"],
      ruleA, by simp [effectiveARN, exactRules, examplePrincipal],
      by decide, by decide, by decide, by decide⟩,
   (identityMapper_first_match_wins exactRules exampleBackendOf exampleConfigured
      instancePrincipal (by decide) _).mpr
     ⟨"arn:aws:iam::111122223333:role/node", ["MountedFile"], "EKSConfigMap", ["CRD"],
      ruleA, by simp [effectiveARN, exactRules, instancePrincipal],
      by decide, by decide, by decide, by decide⟩⟩

end AwsIamAuthenticator
